import Mathlib

/-!
Verification of the real-time voice pipeline of the AI-memory-avatar
repository.  The definitions below are shallow embeddings of the
TypeScript source:

* the duplex (Gemini Live) session component (`stopAllAudio`,
  `handleMessage` audio-frame scheduling) — `src/unnamed/part_000`;
* the batch-mode live session (`setupVAD`'s `onaudioprocess` handler,
  `processUserSpeech`, `stopAudioPlayback`) — `src/components/LiveSession.tsx`;
* the Gemini service layer (`retryWithBackoff`, `generateAvatarResponse`
  in both variants) — `src/services/geminiService.ts` and
  `src/unnamed/part_007`.

Time instants and durations are rationals (the WebAudio clock is a real
number; all operations used are order/field operations, so ℚ is an exact
executable model).  Timestamps from `Date.now()` are integers (ms).
-/

namespace Avatar

/-- Model of a scheduled `AudioBufferSourceNode`: the time passed to
`source.start` and the decoded buffer's duration. -/
structure Segment where
  startTime : ℚ
  duration : ℚ
deriving DecidableEq, Repr

/-- State of the duplex (Gemini Live) session component that is touched by
the playback-scheduling code paths: `nextStartTimeRef`, `audioSourcesRef`,
the `isAiSpeaking` react state and `currentTranscriptRef`. -/
structure DuplexState where
  nextStartTime : ℚ
  activeSources : List Segment
  isAiSpeaking : Bool
  currentTranscript : String
deriving DecidableEq, Repr

/-- Embedding of `stopAllAudio` (src/unnamed/part_000, lines 68–75): stop
every source (each `source.stop()` is wrapped in `try/catch`, so the
operation is total — modelled by the function being total), clear the set,
set `isAiSpeaking` to `false` and reset `nextStartTimeRef.current` to `0`. -/
def stopAllAudio (d : DuplexState) : DuplexState :=
  { d with activeSources := [], isAiSpeaking := false, nextStartTime := 0 }

/-- Embedding of the `message.serverContent?.interrupted` branch of
`handleMessage` (src/unnamed/part_000, lines 165–170): `stopAllAudio()`
then clear the accumulated transcript. -/
def handleInterrupted (d : DuplexState) : DuplexState :=
  { stopAllAudio d with currentTranscript := "" }

/-- Embedding of the native-audio path of `handleMessage`
(src/unnamed/part_000, lines 221–250) for one inbound audio frame:
`nextStartTime := max nextStartTime ctx.currentTime`;
`source.start(nextStartTime)`; `nextStartTime += audioBuffer.duration`;
add the source to the active set; `setIsAiSpeaking(true)`.
`clock` is `ctx.currentTime` at handling time, `dur` the decoded
buffer's duration.  Returns the new state and the scheduled segment. -/
def scheduleAudioFrame (d : DuplexState) (clock dur : ℚ) :
    DuplexState × Segment :=
  let start := max d.nextStartTime clock
  let seg : Segment := ⟨start, dur⟩
  ({ d with
      nextStartTime := start + dur,
      activeSources := d.activeSources ++ [seg],
      isAiSpeaking := true },
   seg)

/-- State of the batch-mode session component (`LiveSession.tsx`) touched
by the VAD / turn pipeline: react state `micActive`, `isProcessing`,
`status`, `history`, `isTalking`; refs `isUserSpeakingRef`,
`lastSpeechTimeRef`, `silenceTimerRef`, `mediaRecorderRef`,
`currentSourceRef`.  `silenceTimer` holds the deadline of the timer object
currently referenced by `silenceTimerRef` (the ref is not nulled when the
timer is merely cleared); `timerLive` records whether that timeout is
still scheduled to fire. -/
structure Msg where
  role : String
  text : String
deriving DecidableEq, Repr

structure BatchState where
  micActive : Bool
  isProcessing : Bool
  status : String
  history : List Msg
  isUserSpeaking : Bool
  lastSpeechTime : ℤ
  silenceTimer : Option ℤ
  timerLive : Bool
  recorderActive : Bool
  currentSource : Bool
  isTalking : Bool
deriving DecidableEq, Repr

/-- Constant `VAD_THRESHOLD` (LiveSession.tsx line 45). -/
def VAD_THRESHOLD : ℚ := 0.02

/-- Constant `SILENCE_DURATION` in ms (LiveSession.tsx line 46). -/
def SILENCE_DURATION : ℤ := 2000

/-- Constant `MIN_BLOB_SIZE` in bytes (LiveSession.tsx line 199). -/
def MIN_BLOB_SIZE : ℕ := 10000

/-- Mean of squared samples of a frame, `sum / input.length` with
`sum = Σ input[i]²` (LiveSession.tsx lines 118–122).  For the empty frame
rational division by zero yields 0 (the JS code would produce NaN, which
also fails the threshold comparison). -/
def rmsSq (frame : List ℚ) : ℚ :=
  (frame.foldl (fun a x => a + x * x) 0) / (frame.length : ℚ)

/-- Executable form of the comparison `rms > VAD_THRESHOLD` where
`rms = Math.sqrt(sum / input.length)` (LiveSession.tsx lines 122–124).
Because both sides are non-negative, `sqrt (rmsSq f) > 0.02` is
equivalent to `rmsSq f > 0.02²`; the claim-C3 theorem below proves this
equivalence against `Real.sqrt` explicitly. -/
def vadSpeech (frame : List ℚ) : Bool :=
  decide (VAD_THRESHOLD ^ 2 < rmsSq frame)

/-- Embedding of `stopAudioPlayback` (LiveSession.tsx lines 315–322):
stop the current source if any (the `stop` call is inside `try/catch`,
so the operation is total), null the ref, `setIsTalking(false)`. -/
def stopAudioPlayback (s : BatchState) : BatchState :=
  { s with currentSource := false, isTalking := false }

/-- Embedding of the `processor.onaudioprocess` handler installed by
`setupVAD` (LiveSession.tsx lines 114–153) for one frame arriving at time
`now` (ms): ignore the frame when muted or processing; on speech
(`rms > VAD_THRESHOLD`) barge-in if previously silent, set
`isUserSpeakingRef := true`, refresh `lastSpeechTimeRef`, clear any
pending silence timer; on silence while speaking, once more than
`SILENCE_DURATION` ms have elapsed and no timer is armed, arm a 100 ms
timer (deadline `now + 100`) whose expiry runs `processUserSpeech`. -/
def vadStep (s : BatchState) (frame : List ℚ) (now : ℤ) : BatchState :=
  if !s.micActive || s.isProcessing then s
  else if vadSpeech frame then
    let s1 := if !s.isUserSpeaking then stopAudioPlayback s else s
    let s2 := { s1 with isUserSpeaking := true, lastSpeechTime := now }
    if s2.silenceTimer.isSome then
      { s2 with silenceTimer := none, timerLive := false }
    else s2
  else
    if s.isUserSpeaking ∧ now - s.lastSpeechTime > SILENCE_DURATION ∧
        s.silenceTimer = none then
      { s with silenceTimer := some (now + 100), timerLive := true }
    else s

/-- Model of a thrown Gemini SDK error object: optional `status`, optional
`code`, and `message` (the empty string models an absent message, matching
JS truthiness of `error.message`). -/
structure GemError where
  status : Option ℕ
  code : Option ℕ
  message : String
deriving DecidableEq, Repr

/-- JS `String.prototype.includes`, modelled on the character data. -/
def jsIncludes (s pat : String) : Bool :=
  decide (List.IsInfix pat.data s.data)

/-- JS `String.prototype.startsWith`, modelled on the character data. -/
def jsStartsWith (s pat : String) : Bool :=
  decide (List.IsPrefix pat.data s.data)

/-- Embedding of the `isRetryable` predicate of `retryWithBackoff`
(src/services/geminiService.ts, lines 25–37). -/
def isRetryableError (e : GemError) : Bool :=
  e.status == some 503 || e.code == some 503 ||
  e.status == some 429 || e.code == some 429 ||
  (e.message != "" &&
    (jsIncludes e.message "503" || jsIncludes e.message "429" ||
     jsIncludes e.message "overloaded" || jsIncludes e.message "quota" ||
     jsIncludes e.message "RESOURCE_EXHAUSTED" ||
     jsIncludes e.message "UNAVAILABLE"))

/-- Embedding of `retryWithBackoff` (src/services/geminiService.ts, lines
17–46).  The asynchronous operation is modelled as an oracle `op` giving
the outcome of the k-th attempt.  Returns the final outcome, the number
of attempts made, and the list of back-off delays waited (in ms), in
order.  On a retryable error with retries left it waits `delay`, then
recurses with `retries - 1` and `delay * 2`; any other error is rethrown
immediately. -/
def retryWithBackoff {α : Type} (op : ℕ → Except GemError α) :
    ℕ → ℕ → ℚ → Except GemError α × ℕ × List ℚ
  | i, 0, _ =>
    match op i with
    | .ok v => (.ok v, 1, [])
    | .error e => (.error e, 1, [])
  | i, retries + 1, delay =>
    match op i with
    | .ok v => (.ok v, 1, [])
    | .error e =>
      if isRetryableError e then
        let res := retryWithBackoff op (i + 1) retries (delay * 2)
        (res.1, res.2.1 + 1, delay :: res.2.2)
      else (.error e, 1, [])

/-- Outcomes of the external calls made during one run of
`processUserSpeech`: the finalized blob's byte size, the overall result of
`transcribeAudio` (after its internal retries), the overall result of
`generateAvatarResponse`, and whether audio synthesis + decode in
`playResponse` succeeded (that function catches its own errors). -/
structure TurnEnv where
  blobSize : ℕ
  transcription : Except GemError String
  genResult : Except GemError String
  ttsOk : Bool

/-- Numbers of calls that reached the Speech-to-Text and Response
Generation interfaces during one pipeline run. -/
structure Calls where
  sttCalls : ℕ
  genCalls : ℕ
deriving DecidableEq, Repr

/-- Status set by the `catch` block of `processUserSpeech`
(LiveSession.tsx lines 239–246). -/
def errStatusOf (e : GemError) : String :=
  if jsIncludes e.message "429" || e.status == some 429 then
    "Rate limited. Waiting..."
  else "Error processing speech."

/-- Embedding of the `finally` block of `processUserSpeech`
(LiveSession.tsx lines 247–250): `setIsProcessing(false)`; if the mic is
active, `setStatus('Listening...')`. -/
def finallyBlock (s : BatchState) : BatchState :=
  { s with
      isProcessing := false,
      status := if s.micActive then "Listening..." else s.status }

/-- Embedding of `playResponse`/`playAudioBuffer` (LiveSession.tsx lines
255–313) at the level of the session state: on synthesis + decode success
the new buffer is played after `stopAudioPlayback()` (no overlap); on
total failure the status becomes `'Audio Error'` (the function catches
internally and never throws). -/
def playResponse (s : BatchState) (ok : Bool) : BatchState :=
  if ok then { stopAudioPlayback s with currentSource := true }
  else { s with status := "Audio Error" }

/-- Embedding of `processUserSpeech` (LiveSession.tsx lines 181–251), the
handler run by the silence-confirmation timer.  Guard: missing recorder or
`isProcessing` returns unchanged.  Then: reset VAD flags (`clearTimeout`
cancels the armed timer but the ref is not nulled), stop the recorder,
set `isProcessing`/`'Thinking...'`, rebuild the blob, restart recording;
discard blobs under `MIN_BLOB_SIZE`; transcribe; discard empty or <2-char
transcripts; append the user turn, generate a reply, append it, speak it;
the `catch` block maps 429 errors to a rate-limit status; the `finally`
block clears `isProcessing` and restores `'Listening...'` while the mic
is active. -/
def processUserSpeech (s : BatchState) (env : TurnEnv) : BatchState × Calls :=
  if !s.recorderActive || s.isProcessing then (s, ⟨0, 0⟩)
  else
    let s1 := { s with
        isUserSpeaking := false,
        timerLive := if s.silenceTimer.isSome then false else s.timerLive }
    let s2 := { s1 with
        isProcessing := true, status := "Thinking...", recorderActive := true }
    if env.blobSize < MIN_BLOB_SIZE then
      ({ s2 with isProcessing := false, status := "Listening..." }, ⟨0, 0⟩)
    else
      match env.transcription with
      | .error e => (finallyBlock { s2 with status := errStatusOf e }, ⟨1, 0⟩)
      | .ok tr =>
        if tr = "" || tr.trim.length < 2 then
          (finallyBlock
            { s2 with isProcessing := false, status := "Listening..." },
           ⟨1, 0⟩)
        else
          let s3 := { s2 with history := s2.history ++ [(⟨"user", tr⟩ : Msg)] }
          match env.genResult with
          | .error e =>
            (finallyBlock { s3 with status := errStatusOf e }, ⟨1, 1⟩)
          | .ok resp =>
            let s4 := { s3 with
                history := s3.history ++ [(⟨"model", resp⟩ : Msg)],
                status := "Speaking..." }
            (finallyBlock (playResponse s4 env.ttsOk), ⟨1, 1⟩)

/-- Events interleaving on the single JS thread that drive the VAD state:
a microphone frame arriving at time `now`, or the silence-confirmation
timeout attempting to fire at time `now`. -/
inductive Ev
  | frame (f : List ℚ) (now : ℤ)
  | fire (now : ℤ)

/-- One event step.  A `fire` runs `processUserSpeech` — the
SilenceConfirmed emission — only if the scheduled timeout is still live
(a cleared timeout never fires, and a timeout fires at most once); the ℕ
component counts SilenceConfirmed emissions. -/
def runStep (env : TurnEnv) (s : BatchState) : Ev → BatchState × ℕ
  | .frame f now => (vadStep s f now, 0)
  | .fire _ =>
    if s.timerLive then
      ((processUserSpeech { s with timerLive := false } env).1, 1)
    else (s, 0)

/-- Run a list of events, accumulating the SilenceConfirmed count. -/
def run (env : TurnEnv) (s : BatchState) : List Ev → BatchState × ℕ
  | [] => (s, 0)
  | e :: es =>
    let p := runStep env s e
    let q := run env p.1 es
    (q.1, p.2 + q.2)

/-- An event that carries no speech: a frame whose RMS is at or below the
VAD threshold, or a timer event. -/
def silentEv : Ev → Prop
  | .frame f _ => vadSpeech f = false
  | .fire _ => True

namespace geminiService

/-- Embedding of the history argument of the `ai.chats.create` call in
`generateAvatarResponse` (src/services/geminiService.ts, lines 59–66):
the accumulated history is mapped message-for-message into the request —
there is no windowing in this variant. -/
def chatHistory (history : List Msg) : List Msg :=
  history.map fun h => { role := h.role, text := h.text }

/-- Conversation contents carried by the `sendMessage` request of
`generateAvatarResponse` (src/services/geminiService.ts, lines 59–69):
the full mapped chat history followed by the new user prompt. -/
def requestMessages (history : List Msg) (userPrompt : String) : List Msg :=
  chatHistory history ++ [⟨"user", userPrompt⟩]

end geminiService

namespace part007

/-- Filter predicate of `cleanHistory` in `generateAvatarResponse`
(src/unnamed/part_007, lines 50–55): keep a message iff its text is
truthy, trims non-empty, does not contain "I am listening" and does not
start with "(Silence". -/
def keepMsg (m : Msg) : Bool :=
  m.text != "" && decide (0 < m.text.trim.length) &&
  !(jsIncludes m.text "I am listening") && !(jsStartsWith m.text "(Silence")

/-- Embedding of `cleanHistory` (src/unnamed/part_007, lines 50–55). -/
def cleanHistory (history : List Msg) : List Msg :=
  history.filter keepMsg

/-- Embedding of `recentHistory = cleanHistory.slice(-6)`
(src/unnamed/part_007, line 58): the last six cleaned messages. -/
def recentHistory (history : List Msg) : List Msg :=
  (cleanHistory history).drop ((cleanHistory history).length - 6)

/-- Conversation contents built for the `generateContent` request
(src/unnamed/part_007, lines 61–75): the recent history, with non-"model"
roles coerced to "user", followed by the current user message. -/
def requestContents (history : List Msg) (inputText : String) : List Msg :=
  (recentHistory history).map
      (fun m =>
        { role := if m.role == "model" then "model" else "user",
          text := m.text })
    ++ [⟨"user", inputText⟩]

/-- Model of the SDK response consumed by `generateAvatarResponse`:
`response.text` (empty string for absent) and the candidates' finish
reasons (`none` models an absent `finishReason`). -/
structure Candidate where
  finishReason : Option String
deriving DecidableEq, Repr

structure GenResponse where
  text : String
  candidates : List Candidate
deriving DecidableEq, Repr

/-- Embedding of the result computation of `generateAvatarResponse`
(src/unnamed/part_007, lines 90–104): return `response.text` when truthy;
otherwise, when the first candidate has a truthy `finishReason` other
than `'STOP'`, return `"(Silence: <reason>)"`; otherwise return
`"I am listening."`. -/
def responseText (resp : GenResponse) : String :=
  if resp.text != "" then resp.text
  else
    match resp.candidates with
    | [] => "I am listening."
    | c :: _ =>
      match c.finishReason with
      | none => "I am listening."
      | some reason =>
        if reason != "" && reason != "STOP" then "(Silence: " ++ reason ++ ")"
        else "I am listening."

end part007

/-- VAD phase "speaking, no silence timer armed": the configuration from
which a silence countdown can begin. -/
def PhA (L : ℤ) (s : BatchState) : Prop :=
  s.micActive = true ∧ s.isProcessing = false ∧ s.recorderActive = true ∧
  s.isUserSpeaking = true ∧ s.lastSpeechTime = L ∧
  s.silenceTimer = none ∧ s.timerLive = false

/-- VAD phase "speaking, confirmation timer armed and live". -/
def PhB (L : ℤ) (s : BatchState) : Prop :=
  s.micActive = true ∧ s.isProcessing = false ∧ s.recorderActive = true ∧
  s.isUserSpeaking = true ∧ s.lastSpeechTime = L ∧
  s.silenceTimer.isSome = true ∧ s.timerLive = true

/-- VAD phase "turn finalized": `isUserSpeakingRef` is false and no timer
is live, so continued silence can neither arm a timer nor fire one. -/
def PhC (s : BatchState) : Prop :=
  s.micActive = true ∧ s.isProcessing = false ∧ s.recorderActive = true ∧
  s.isUserSpeaking = false ∧ s.timerLive = false

/-- Embedding of the `onaudioprocess` handler as actually installed by
`setupVAD` (LiveSession.tsx lines 101–153): `setupVAD` runs once on
mount, so the closure reads the react `useState` values `micActive` and
`isProcessing` as captured at that render (`mic0`, `proc0`; at mount
`true` and `false`), not the live component state.  Only the refs
(`isUserSpeakingRef`, `lastSpeechTimeRef`, `silenceTimerRef`,
`currentSourceRef`) are read and written live.  `vadStep` above is the
same handler with the guard reading live state — the reading the spec
assumes. -/
def vadStepCaptured (mic0 proc0 : Bool) (s : BatchState) (frame : List ℚ)
    (now : ℤ) : BatchState :=
  if !mic0 || proc0 then s
  else if vadSpeech frame then
    let s1 := if !s.isUserSpeaking then stopAudioPlayback s else s
    let s2 := { s1 with isUserSpeaking := true, lastSpeechTime := now }
    if s2.silenceTimer.isSome then
      { s2 with silenceTimer := none, timerLive := false }
    else s2
  else
    if s.isUserSpeaking ∧ now - s.lastSpeechTime > SILENCE_DURATION ∧
        s.silenceTimer = none then
      { s with silenceTimer := some (now + 100), timerLive := true }
    else s

/-- The `finally` block of `processUserSpeech` as captured at mount: the
`micActive` it reads is the captured value `mic0`. -/
def finallyBlockCaptured (mic0 : Bool) (s : BatchState) : BatchState :=
  { s with
      isProcessing := false,
      status := if mic0 then "Listening..." else s.status }

/-- Embedding of `processUserSpeech` as invoked through the mount-render
closures: its `isProcessing` guard reads the react value captured at that
render (`proc0`, `false` at mount) and the `finally` block reads the
captured `micActive` (`mic0`); writes go through the state setters and
the refs, which act on live state.  (The handler's captured `history`
read is not distinguished here: it does not affect the guard behaviour
at issue.)  `processUserSpeech` above is the same pipeline with the
guard reading live state — the reading the spec assumes. -/
def processUserSpeechCaptured (mic0 proc0 : Bool) (s : BatchState)
    (env : TurnEnv) : BatchState × Calls :=
  if !s.recorderActive || proc0 then (s, ⟨0, 0⟩)
  else
    let s1 := { s with
        isUserSpeaking := false,
        timerLive := if s.silenceTimer.isSome then false else s.timerLive }
    let s2 := { s1 with
        isProcessing := true, status := "Thinking...",
        recorderActive := true }
    if env.blobSize < MIN_BLOB_SIZE then
      ({ s2 with isProcessing := false, status := "Listening..." }, ⟨0, 0⟩)
    else
      match env.transcription with
      | .error e =>
        (finallyBlockCaptured mic0 { s2 with status := errStatusOf e },
         ⟨1, 0⟩)
      | .ok tr =>
        if tr = "" || tr.trim.length < 2 then
          (finallyBlockCaptured mic0
            { s2 with isProcessing := false, status := "Listening..." },
           ⟨1, 0⟩)
        else
          let s3 := { s2 with
              history := s2.history ++ [(⟨"user", tr⟩ : Msg)] }
          match env.genResult with
          | .error e =>
            (finallyBlockCaptured mic0 { s3 with status := errStatusOf e },
             ⟨1, 1⟩)
          | .ok resp =>
            let s4 := { s3 with
                history := s3.history ++ [(⟨"model", resp⟩ : Msg)],
                status := "Speaking..." }
            (finallyBlockCaptured mic0 (playResponse s4 env.ttsOk),
             ⟨1, 1⟩)

/-- Claim C1: on the native-audio path each inbound frame is scheduled at
`max(nextAvailableStartTime, currentOutputClockTime)` and
`nextAvailableStartTime` is then advanced by exactly the segment's
duration; hence for two consecutively scheduled segments A then B (no
interruption in between), `B.scheduledStartTime ≥ A.scheduledStartTime +
A.duration`. -/
theorem duplex_gapless_scheduling (d : DuplexState) (cA dA cB dB : ℚ) :
    (scheduleAudioFrame d cA dA).2.startTime = max d.nextStartTime cA ∧
    (scheduleAudioFrame d cA dA).1.nextStartTime =
      (scheduleAudioFrame d cA dA).2.startTime + dA ∧
    (scheduleAudioFrame d cA dA).2.startTime +
        (scheduleAudioFrame d cA dA).2.duration ≤
      (scheduleAudioFrame (scheduleAudioFrame d cA dA).1 cB dB).2.startTime := by
  refine ⟨rfl, rfl, ?_⟩
  show max d.nextStartTime cA + dA ≤ max (max d.nextStartTime cA + dA) cB
  exact le_max_left _ _

/-- Claim C2, counterexample: `stopAllAudio` (run by the interruption
handler) sets `nextStartTimeRef.current = 0`, not to the current output
clock value.  With three queued segments and an output clock at 7s, after
`handleInterrupted` the next-available start time is 0, not 7. -/
theorem interrupt_reset_counterexample :
    (handleInterrupted
        ⟨7, [⟨1, 2⟩, ⟨3, 2⟩, ⟨5, 2⟩], true, "hi"⟩).nextStartTime = 0 ∧
    (0 : ℚ) ≠ 7 :=
  ⟨rfl, by norm_num⟩

/-- Claim C2 as amended: handling an interruption (local barge-in in batch
mode, `InterruptedEvent` in duplex mode) synchronously stops every
scheduled/playing segment, empties the active set, marks the avatar as not
speaking, and in duplex mode resets `nextAvailableStartTime` to zero —
because the next schedule takes `max(nextAvailableStartTime, clock)`, the
next segment still starts at the (non-negative) current clock time. -/
theorem interrupt_clears_playback (d : DuplexState) (s : BatchState)
    (clock dur : ℚ) (hclock : 0 ≤ clock) :
    (handleInterrupted d).activeSources = [] ∧
    (handleInterrupted d).isAiSpeaking = false ∧
    (handleInterrupted d).nextStartTime = 0 ∧
    (scheduleAudioFrame (handleInterrupted d) clock dur).2.startTime =
      clock ∧
    (stopAudioPlayback s).currentSource = false ∧
    (stopAudioPlayback s).isTalking = false := by
  refine ⟨rfl, rfl, rfl, ?_, rfl, rfl⟩
  show max (0 : ℚ) clock = clock
  exact max_eq_right hclock

theorem interrupt_clears_playback_witness :
    (0 : ℚ) ≤ 5 ∧
    (scheduleAudioFrame
        (handleInterrupted ⟨7, [⟨1, 2⟩], true, "x"⟩) 5 2).2.startTime = 5 :=
  ⟨by norm_num,
   (interrupt_clears_playback ⟨7, [⟨1, 2⟩], true, "x"⟩
      ⟨true, false, "", [], false, 0, none, false, true, true, true⟩
      5 2 (by norm_num)).2.2.2.1⟩

/-- Claim C8: cancelling all playback (`stopAllAudio` duplex,
`stopAudioPlayback` batch) is idempotent, total on an already-empty
scheduler (every `source.stop()` is inside `try/catch`, so the operations
are total functions), and leaves the active set empty with the talking
state false. -/
theorem cancelAll_idempotent (d : DuplexState) (s : BatchState) :
    stopAllAudio (stopAllAudio d) = stopAllAudio d ∧
    stopAllAudio { d with activeSources := [] } = stopAllAudio d ∧
    (stopAllAudio d).activeSources = [] ∧
    (stopAllAudio d).isAiSpeaking = false ∧
    stopAudioPlayback (stopAudioPlayback s) = stopAudioPlayback s ∧
    stopAudioPlayback { s with currentSource := false } =
      stopAudioPlayback s ∧
    (stopAudioPlayback s).currentSource = false ∧
    (stopAudioPlayback s).isTalking = false :=
  ⟨rfl, rfl, rfl, rfl, rfl, rfl, rfl, rfl⟩

/-- Claim C5: a finalized turn blob below `MIN_BLOB_SIZE` bytes is
discarded — `transcribeAudio` is never called, the status returns to
`Listening...` and the processing flag is cleared. -/
theorem min_blob_discard (s : BatchState) (env : TurnEnv)
    (hrec : s.recorderActive = true) (hproc : s.isProcessing = false)
    (hsize : env.blobSize < MIN_BLOB_SIZE) :
    (processUserSpeech s env).2.sttCalls = 0 ∧
    (processUserSpeech s env).1.status = "Listening..." ∧
    (processUserSpeech s env).1.isProcessing = false := by
  unfold processUserSpeech
  rw [hrec, hproc]
  simp [hsize]

theorem min_blob_discard_witness :
    (processUserSpeech
        ⟨true, false, "Listening...", [], true, 0, some 2100, true, true,
         false, false⟩
        ⟨500, Except.ok "hi", Except.ok "ok", true⟩).2.sttCalls = 0 ∧
    (processUserSpeech
        ⟨true, false, "Listening...", [], true, 0, some 2100, true, true,
         false, false⟩
        ⟨500, Except.ok "hi", Except.ok "ok", true⟩).1.status =
      "Listening..." ∧
    (processUserSpeech
        ⟨true, false, "Listening...", [], true, 0, some 2100, true, true,
         false, false⟩
        ⟨500, Except.ok "hi", Except.ok "ok", true⟩).1.isProcessing =
      false :=
  min_blob_discard _ _ rfl rfl (by decide)

/-- Claim C6, counterexample: the `generateAvatarResponse` of
`src/services/geminiService.ts` — the variant the batch session imports —
creates the chat with the entire accumulated history: with 7 prior turns
the request carries all 7, exceeding the claimed 6-message window. -/
theorem full_history_forwarded_counterexample :
    (geminiService.chatHistory
      [⟨"user", "u1"⟩, ⟨"model", "m1"⟩, ⟨"user", "u2"⟩, ⟨"model", "m2"⟩,
       ⟨"user", "u3"⟩, ⟨"model", "m3"⟩, ⟨"user", "u4"⟩]).length = 7 ∧
    (geminiService.requestMessages
      [⟨"user", "u1"⟩, ⟨"model", "m1"⟩, ⟨"user", "u2"⟩, ⟨"model", "m2"⟩,
       ⟨"user", "u3"⟩, ⟨"model", "m3"⟩, ⟨"user", "u4"⟩] "q").length = 8 ∧
    ¬((7 : ℕ) ≤ 6) :=
  ⟨rfl, rfl, by norm_num⟩

/-- Claim C6 as amended: the `part_007` variant of
`generateAvatarResponse` forwards at most the last 6 (cleaned) prior
messages, so older turns never re-enter its context window; the
`src/services/geminiService.ts` variant forwards the full accumulated
history unwindowed. -/
theorem history_window_amended (history : List Msg) (input : String) :
    (part007.recentHistory history).length ≤ 6 ∧
    (part007.requestContents history input).length ≤ 7 ∧
    geminiService.chatHistory history = history := by
  have hlen : (part007.recentHistory history).length ≤ 6 := by
    unfold part007.recentHistory
    rw [List.length_drop]
    omega
  refine ⟨hlen, ?_, ?_⟩
  · unfold part007.requestContents
    rw [List.length_append, List.length_map]
    simpa using hlen
  · exact List.map_id history

/-- Claim C7, code bug: `setupVAD` installs `onaudioprocess` once on
mount and the silence timer invokes the `processUserSpeech` closure from
that same render, so both guards read the `useState` values captured
then — `micActive = true`, `isProcessing = false` — never the live
state.  At the failing input (live `isProcessing = true`: a pipeline is
in flight), the claim — stated by the live-reading `vadStep` /
`processUserSpeech` in the first two conjuncts — requires the speech
frame ignored and no second pipeline; the installed closures instead
process the frame (the barge-in flags mutate), re-arm the confirmation
timer on the following silence, and launch a second pipeline whose
transcription call fires (`sttCalls = 1`): two turn pipelines overlap. -/
theorem stale_guard_divergence :
    vadStep
        ⟨true, true, "Thinking...", [], false, 0, none, false, true, false,
         false⟩ [1] 5000 =
      ⟨true, true, "Thinking...", [], false, 0, none, false, true, false,
       false⟩ ∧
    (processUserSpeech
        ⟨true, true, "Thinking...", [], false, 0, none, false, true, false,
         false⟩
        ⟨20000, Except.ok "hello there", Except.ok "hi", true⟩).2.sttCalls
      = 0 ∧
    (vadStepCaptured true false
        ⟨true, true, "Thinking...", [], false, 0, none, false, true, false,
         false⟩ [1] 5000).isUserSpeaking = true ∧
    (vadStepCaptured true false
        ⟨true, true, "Thinking...", [], false, 0, none, false, true, false,
         false⟩ [1] 5000).lastSpeechTime = 5000 ∧
    (vadStepCaptured true false
        (vadStepCaptured true false
            ⟨true, true, "Thinking...", [], false, 0, none, false, true,
             false, false⟩ [1] 5000) [0] 7500).timerLive = true ∧
    (processUserSpeechCaptured true false
        ⟨true, true, "Thinking...", [], false, 0, none, false, true, false,
         false⟩
        ⟨20000, Except.ok "hello there", Except.ok "hi", true⟩).2.sttCalls
      = 1 := by
  have hs : vadSpeech [1] = true := by
    simp only [vadSpeech, decide_eq_true_eq, rmsSq, VAD_THRESHOLD,
      List.foldl, List.length]
    norm_num
  have hq : vadSpeech [0] = false := by
    simp only [vadSpeech, rmsSq, VAD_THRESHOLD, List.foldl, List.length]
    norm_num
  have h1 : vadStepCaptured true false
      ⟨true, true, "Thinking...", [], false, 0, none, false, true, false,
       false⟩ [1] 5000 =
      ⟨true, true, "Thinking...", [], true, 5000, none, false, true, false,
       false⟩ := by
    simp [vadStepCaptured, stopAudioPlayback, hs]
  refine ⟨rfl, rfl, ?_, ?_, ?_, ?_⟩
  · rw [h1]
  · rw [h1]
  · rw [h1]
    simp [vadStepCaptured, hq, SILENCE_DURATION]
  · unfold processUserSpeechCaptured
    simp only [MIN_BLOB_SIZE]
    by_cases htrim : "hello there".trim.length < 2 <;>
      simp [htrim]

/-- Claim C3: the VAD compares the frame's root-mean-square to the fixed
threshold 0.02 (the executable comparison on the squared mean is
equivalent to comparing `Real.sqrt` of it with `VAD_THRESHOLD`); on a
frame above threshold while previously silent, playback is cancelled
(barge-in), `isSpeaking` becomes true, `lastSpeechTimestamp` is refreshed
and any pending silence timer is cleared; on a frame at/below threshold
while speaking, once more than `SILENCE_DURATION` ms have elapsed since
`lastSpeechTimestamp` and no timer is armed, a 100 ms confirmation timer
is armed. -/
theorem vad_threshold_and_transitions (s : BatchState) (f : List ℚ)
    (now : ℤ) :
    (vadSpeech f = true ↔
      ((VAD_THRESHOLD : ℚ) : ℝ) < Real.sqrt ((rmsSq f : ℚ) : ℝ)) ∧
    (s.micActive = true → s.isProcessing = false → vadSpeech f = true →
      s.isUserSpeaking = false →
      (s.timerLive = true → s.silenceTimer.isSome = true) →
      (vadStep s f now).currentSource = false ∧
      (vadStep s f now).isTalking = false ∧
      (vadStep s f now).isUserSpeaking = true ∧
      (vadStep s f now).lastSpeechTime = now ∧
      (vadStep s f now).silenceTimer = none ∧
      (vadStep s f now).timerLive = false) ∧
    (s.micActive = true → s.isProcessing = false → vadSpeech f = false →
      s.isUserSpeaking = true → now - s.lastSpeechTime > SILENCE_DURATION →
      s.silenceTimer = none →
      (vadStep s f now).silenceTimer = some (now + 100) ∧
      (vadStep s f now).timerLive = true) := by
  refine ⟨?_, ?_, ?_⟩
  · rw [show vadSpeech f = decide (VAD_THRESHOLD ^ 2 < rmsSq f) from rfl,
        decide_eq_true_eq,
        Real.lt_sqrt (by norm_num [VAD_THRESHOLD])]
    constructor <;> intro h <;> exact_mod_cast h
  · intro hmic hproc hsp hus hinv
    cases hstim : s.silenceTimer with
    | none =>
      have htl : s.timerLive = false := by
        cases htl' : s.timerLive
        · rfl
        · have := hinv htl'
          rw [hstim] at this
          simp at this
      simp [vadStep, stopAudioPlayback, hmic, hproc, hsp, hus, hstim, htl]
    | some d =>
      simp [vadStep, stopAudioPlayback, hmic, hproc, hsp, hus, hstim]
  · intro hmic hproc hsp hus hdur hstim
    simp [vadStep, hmic, hproc, hsp, hus, hdur, hstim]

theorem vad_threshold_and_transitions_witness :
    (vadStep
        ⟨true, false, "Listening...", [], false, 0, some 900, true, true,
         true, true⟩ [1] 1000).silenceTimer = none ∧
    (vadStep
        ⟨true, false, "Listening...", [], false, 0, some 900, true, true,
         true, true⟩ [1] 1000).isUserSpeaking = true ∧
    (vadStep
        ⟨true, false, "Listening...", [], false, 0, some 900, true, true,
         true, true⟩ [1] 1000).currentSource = false ∧
    (vadStep
        ⟨true, false, "Listening...", [], true, 0, none, false, true,
         false, false⟩ [0] 2500).silenceTimer = some (2500 + 100) ∧
    (vadStep
        ⟨true, false, "Listening...", [], true, 0, none, false, true,
         false, false⟩ [0] 2500).timerLive = true := by
  have hs : vadSpeech [1] = true := by
    simp only [vadSpeech, decide_eq_true_eq, rmsSq, VAD_THRESHOLD,
      List.foldl, List.length]
    norm_num
  have hq : vadSpeech [0] = false := by
    simp only [vadSpeech, rmsSq, VAD_THRESHOLD, List.foldl, List.length]
    norm_num
  have h1 := (vad_threshold_and_transitions
      ⟨true, false, "Listening...", [], false, 0, some 900, true, true,
       true, true⟩ [1] 1000).2.1 rfl rfl hs rfl (fun _ => rfl)
  have h2 := (vad_threshold_and_transitions
      ⟨true, false, "Listening...", [], true, 0, none, false, true, false,
       false⟩ [0] 2500).2.2 rfl rfl hq rfl (by decide) rfl
  exact ⟨h1.2.2.2.2.1, h1.2.2.1, h1.1, h2.1, h2.2⟩

/-- Helper: every string of the form `"(Silence: <r>)"` starts with
`"(Silence"`. -/
theorem silence_startsWith (r : String) :
    jsStartsWith ("(Silence: " ++ r ++ ")") "(Silence" = true := by
  unfold jsStartsWith
  rw [decide_eq_true_eq]
  refine ⟨(": " ++ r ++ ")").data, ?_⟩
  rw [← String.data_append]
  congr 1

/-- Helper: the silence placeholder fails `cleanHistory`'s filter. -/
theorem silence_keepMsg (role r : String) :
    part007.keepMsg ⟨role, "(Silence: " ++ r ++ ")"⟩ = false := by
  simp [part007.keepMsg, silence_startsWith r]

/-- Helper: the `"I am listening."` placeholder fails `cleanHistory`'s
filter. -/
theorem listening_keepMsg (role : String) :
    part007.keepMsg ⟨role, "I am listening."⟩ = false := by
  have h : jsIncludes "I am listening." "I am listening" = true := by decide
  simp [part007.keepMsg, h]

/-- Claim C10: when the part_007 `generateAvatarResponse` resolves, its
result is a non-empty string — the model text when present, otherwise
`"(Silence: <finishReason>)"` for an abnormal stop and `"I am
listening."` otherwise — and both placeholder texts are filtered out of
the history forwarded to the model on later calls. -/
theorem fallback_reply_nonempty_and_filtered
    (resp : part007.GenResponse) (r : String) (hist : List Msg) :
    part007.responseText resp ≠ "" ∧
    (resp.text ≠ "" → part007.responseText resp = resp.text) ∧
    (∀ c cs reason, resp.text = "" → resp.candidates = c :: cs →
      c.finishReason = some reason → reason ≠ "" → reason ≠ "STOP" →
      part007.responseText resp = "(Silence: " ++ reason ++ ")") ∧
    (resp.text = "" → resp.candidates = [] →
      part007.responseText resp = "I am listening.") ∧
    part007.keepMsg ⟨"model", "I am listening."⟩ = false ∧
    part007.keepMsg ⟨"model", "(Silence: " ++ r ++ ")"⟩ = false ∧
    (⟨"model", "I am listening."⟩ : Msg) ∉ part007.cleanHistory hist ∧
    (⟨"model", "(Silence: " ++ r ++ ")"⟩ : Msg) ∉
      part007.cleanHistory hist := by
  have hsil : ∀ q : String, ("(Silence: " ++ q ++ ")" : String) ≠ "" := by
    intro q h
    have h2 := silence_startsWith q
    rw [h] at h2
    exact absurd h2 (by decide)
  refine ⟨?_, ?_, ?_, ?_, listening_keepMsg "model",
    silence_keepMsg "model" r, ?_, ?_⟩
  · obtain ⟨text, cands⟩ := resp
    by_cases ht : text = ""
    · subst ht
      cases cands with
      | nil => simp [part007.responseText]
      | cons c cs =>
        obtain ⟨fr⟩ := c
        cases fr with
        | none => simp [part007.responseText]
        | some reason =>
          by_cases hcond : (reason != "" && reason != "STOP") = true
          · simp [part007.responseText, hcond]
            exact hsil reason
          · have hcond' : (reason != "" && reason != "STOP") = false := by
              cases h : (reason != "" && reason != "STOP")
              · rfl
              · exact absurd h hcond
            simp [part007.responseText, hcond']
    · simp [part007.responseText, ht]
  · intro ht
    simp [part007.responseText, ht]
  · intro c cs reason h0 hc hr hne hstop
    simp [part007.responseText, h0, hc, hr, hne, hstop]
  · intro h0 hc
    simp [part007.responseText, h0, hc]
  · simp [part007.cleanHistory, List.mem_filter, listening_keepMsg]
  · simp [part007.cleanHistory, List.mem_filter, silence_keepMsg]

theorem fallback_reply_nonempty_and_filtered_witness :
    part007.responseText ⟨"", [⟨some "SAFETY"⟩]⟩ =
      "(Silence: " ++ "SAFETY" ++ ")" ∧
    part007.responseText ⟨"", []⟩ = "I am listening." ∧
    part007.responseText ⟨"hello", []⟩ = "hello" := by
  have h1 := fallback_reply_nonempty_and_filtered ⟨"", [⟨some "SAFETY"⟩]⟩
    "SAFETY" []
  have h2 := fallback_reply_nonempty_and_filtered ⟨"", []⟩ "x" []
  have h3 := fallback_reply_nonempty_and_filtered ⟨"hello", []⟩ "x" []
  exact ⟨h1.2.2.1 ⟨some "SAFETY"⟩ [] "SAFETY" rfl rfl rfl (by decide)
          (by decide),
         h2.2.2.2.1 rfl rfl,
         h3.2.1 (by decide)⟩


/-- Helper: the retry helper makes at most `retries + 1` attempts. -/
theorem retry_attempts_le {α : Type} (op : ℕ → Except GemError α) :
    ∀ (retries i : ℕ) (delay : ℚ),
      (retryWithBackoff op i retries delay).2.1 ≤ retries + 1 := by
  intro retries
  induction retries with
  | zero =>
    intro i delay
    cases h : op i <;> simp [retryWithBackoff, h]
  | succ n ih =>
    intro i delay
    cases h : op i with
    | ok v => simp [retryWithBackoff, h]
    | error e =>
      by_cases hr : isRetryableError e = true
      · simp only [retryWithBackoff, h, hr, if_true]
        have := ih (i + 1) (delay * 2)
        omega
      · simp [retryWithBackoff, h, hr]

/-- Helper: the retry helper waits exactly once between attempts. -/
theorem retry_waits {α : Type} (op : ℕ → Except GemError α) :
    ∀ (retries i : ℕ) (delay : ℚ),
      (retryWithBackoff op i retries delay).2.2.length + 1 =
        (retryWithBackoff op i retries delay).2.1 := by
  intro retries
  induction retries with
  | zero =>
    intro i delay
    cases h : op i <;> simp [retryWithBackoff, h]
  | succ n ih =>
    intro i delay
    cases h : op i with
    | ok v => simp [retryWithBackoff, h]
    | error e =>
      by_cases hr : isRetryableError e = true
      · simp only [retryWithBackoff, h, hr, if_true, List.length_cons]
        have := ih (i + 1) (delay * 2)
        omega
      · simp [retryWithBackoff, h, hr]

/-- Helper: the back-off delays double at each retry, starting from the
initial delay. -/
theorem retry_delays {α : Type} (op : ℕ → Except GemError α) :
    ∀ (retries i : ℕ) (delay : ℚ),
      (retryWithBackoff op i retries delay).2.2 =
        (List.range (retryWithBackoff op i retries delay).2.2.length).map
          (fun j => delay * 2 ^ j) := by
  intro retries
  induction retries with
  | zero =>
    intro i delay
    cases h : op i <;> simp [retryWithBackoff, h]
  | succ n ih =>
    intro i delay
    cases h : op i with
    | ok v => simp [retryWithBackoff, h]
    | error e =>
      by_cases hr : isRetryableError e = true
      · simp only [retryWithBackoff, h, hr, if_true, List.length_cons,
          List.range_succ_eq_map, List.map_cons, List.map_map]
        refine List.cons_eq_cons.mpr ⟨by norm_num, ?_⟩
        · rw [ih (i + 1) (delay * 2)]
          simp only [List.length_map, List.length_range]
          apply List.map_congr_left
          intro j hj
          simp [pow_succ]
          ring
      · simp [retryWithBackoff, h, hr]


/-- Claim C9: the retry helper caps retries (at most `retries + 1`
attempts, 4 with the default cap of 3), doubles the delay exponentially
between attempts, rethrows non-retryable errors immediately with no
retry, and when a pipeline stage ultimately fails with the mic active the
batch session's status returns to `Listening...` with the processing flag
cleared. -/
theorem retry_and_recover {α : Type} (op : ℕ → Except GemError α)
    (i retries : ℕ) (delay : ℚ) :
    (retryWithBackoff op i retries delay).2.1 ≤ retries + 1 ∧
    (retryWithBackoff op i retries delay).2.2.length + 1 =
      (retryWithBackoff op i retries delay).2.1 ∧
    (retryWithBackoff op i retries delay).2.2 =
      (List.range (retryWithBackoff op i retries delay).2.2.length).map
        (fun j => delay * 2 ^ j) ∧
    (∀ e, op i = .error e → isRetryableError e = false →
      retryWithBackoff op i retries delay = (.error e, 1, [])) ∧
    (∀ (s : BatchState) (env : TurnEnv) (e : GemError),
      s.recorderActive = true → s.isProcessing = false →
      s.micActive = true → ¬env.blobSize < MIN_BLOB_SIZE →
      env.transcription = .error e →
      (processUserSpeech s env).1.status = "Listening..." ∧
      (processUserSpeech s env).1.isProcessing = false) := by
  refine ⟨retry_attempts_le op retries i delay,
    retry_waits op retries i delay, retry_delays op retries i delay,
    ?_, ?_⟩
  · intro e he hnr
    cases retries with
    | zero => simp [retryWithBackoff, he]
    | succ n => simp [retryWithBackoff, he, hnr]
  · intro s env e hrec hproc hmic hsize htr
    unfold processUserSpeech
    rw [hrec, hproc]
    simp [hsize, htr, finallyBlock, errStatusOf, hmic]

theorem retry_and_recover_witness :
    retryWithBackoff
        (fun _ => (.error ⟨some 500, none, "boom"⟩ : Except GemError Unit))
        0 3 2000 =
      (.error ⟨some 500, none, "boom"⟩, 1, []) ∧
    (processUserSpeech
        ⟨true, false, "Listening...", [], false, 0, none, false, true,
         false, false⟩
        ⟨20000, .error ⟨some 429, none, "rate"⟩, .ok "x", true⟩).1.status =
      "Listening..." ∧
    (processUserSpeech
        ⟨true, false, "Listening...", [], false, 0, none, false, true,
         false, false⟩
        ⟨20000, .error ⟨some 429, none, "rate"⟩, .ok "x",
         true⟩).1.isProcessing = false := by
  have h := retry_and_recover
    (fun _ => (.error ⟨some 500, none, "boom"⟩ : Except GemError Unit))
    0 3 2000
  have h5 := h.2.2.2.2
    ⟨true, false, "Listening...", [], false, 0, none, false, true, false,
     false⟩
    ⟨20000, .error ⟨some 429, none, "rate"⟩, .ok "x", true⟩
    ⟨some 429, none, "rate"⟩ rfl rfl rfl (by decide) rfl
  exact ⟨h.2.2.2.1 ⟨some 500, none, "boom"⟩ rfl (by decide), h5.1, h5.2⟩


theorem vadStep_arm (L : ℤ) (s : BatchState) (f : List ℚ) (t : ℤ)
    (h : PhA L s) (hf : vadSpeech f = false)
    (ht : t - L > SILENCE_DURATION) : PhB L (vadStep s f t) := by
  obtain ⟨hmic, hproc, hrec, hus, hlast, hstim, htl⟩ := h
  simp [vadStep, hmic, hproc, hf, hus, hstim, ht, PhB, hlast, hrec]

theorem runStep_phA (env : TurnEnv) (L : ℤ) (s : BatchState) (e : Ev)
    (h : PhA L s) (hsil : silentEv e) :
    (PhA L (runStep env s e).1 ∨ PhB L (runStep env s e).1) ∧
      (runStep env s e).2 = 0 := by
  obtain ⟨hmic, hproc, hrec, hus, hlast, hstim, htl⟩ := h
  cases e with
  | fire t =>
    refine ⟨Or.inl ?_, ?_⟩ <;>
      simp [runStep, htl, PhA, hmic, hproc, hrec, hus, hlast, hstim]
  | frame f t =>
    have hf : vadSpeech f = false := hsil
    by_cases hd : t - s.lastSpeechTime > SILENCE_DURATION
    · refine ⟨Or.inr ?_, rfl⟩
      exact vadStep_arm L s f t ⟨hmic, hproc, hrec, hus, hlast, hstim, htl⟩
        hf (hlast ▸ hd)
    · refine ⟨Or.inl ?_, rfl⟩
      rw [hlast] at hd
      simp [runStep, vadStep, hmic, hproc, hf, hus, hstim, hd, PhA, hlast,
        hrec, htl]

theorem processUserSpeech_phC (s : BatchState) (env : TurnEnv)
    (hmic : s.micActive = true) (hproc : s.isProcessing = false)
    (hrec : s.recorderActive = true) (htl : s.timerLive = false) :
    PhC (processUserSpeech s env).1 := by
  unfold processUserSpeech
  rw [hrec, hproc]
  by_cases hb : env.blobSize < MIN_BLOB_SIZE
  · simp [hb, PhC, hmic, htl]
  · cases htr : env.transcription with
    | error e => simp [hb, htr, PhC, finallyBlock, hmic, htl]
    | ok tr =>
      by_cases hemp : (tr = "" || decide (tr.trim.length < 2)) = true
      · simp [hb, htr, hemp, PhC, finallyBlock, hmic, htl]
      · cases hg : env.genResult with
        | error e =>
          simp [hb, htr, hemp, hg, PhC, finallyBlock, hmic, htl]
        | ok resp =>
          cases hok : env.ttsOk <;>
            simp [hb, htr, hemp, hg, hok, PhC, finallyBlock, playResponse,
              stopAudioPlayback, hmic, htl]

theorem runStep_phB (env : TurnEnv) (L : ℤ) (s : BatchState) (e : Ev)
    (h : PhB L s) (hsil : silentEv e) :
    (PhB L (runStep env s e).1 ∧ (runStep env s e).2 = 0) ∨
    (PhC (runStep env s e).1 ∧ (runStep env s e).2 = 1) := by
  obtain ⟨hmic, hproc, hrec, hus, hlast, hstim, htl⟩ := h
  cases e with
  | frame f t =>
    left
    have hf : vadSpeech f = false := hsil
    have hne : ¬s.silenceTimer = none := by
      intro hnone
      rw [hnone] at hstim
      simp at hstim
    refine ⟨?_, rfl⟩
    simp [runStep, vadStep, hmic, hproc, hf, hus, hne, PhB, hlast, hstim,
      htl, hrec]
  | fire t =>
    right
    refine ⟨?_, by simp [runStep, htl]⟩
    simp only [runStep, htl, if_true]
    exact processUserSpeech_phC _ env hmic hproc hrec rfl

theorem runStep_phC (env : TurnEnv) (s : BatchState) (e : Ev)
    (h : PhC s) (hsil : silentEv e) :
    PhC (runStep env s e).1 ∧ (runStep env s e).2 = 0 := by
  obtain ⟨hmic, hproc, hrec, hus, htl⟩ := h
  cases e with
  | frame f t =>
    have hf : vadSpeech f = false := hsil
    refine ⟨?_, rfl⟩
    simp [runStep, vadStep, hmic, hproc, hf, hus, PhC, hrec, htl]
  | fire t =>
    refine ⟨?_, ?_⟩ <;> simp [runStep, htl, PhC, hmic, hproc, hrec, hus]

theorem run_phC (env : TurnEnv) (s : BatchState) (es : List Ev)
    (h : PhC s) (hs : ∀ e ∈ es, silentEv e) :
    PhC (run env s es).1 ∧ (run env s es).2 = 0 := by
  induction es generalizing s with
  | nil => simpa [run]
  | cons e es ih =>
    obtain ⟨h1, h2⟩ := runStep_phC env s e h (hs e (by simp))
    obtain ⟨h3, h4⟩ := ih (runStep env s e).1 h1
      (fun e' he' => hs e' (by simp [he']))
    simp [run, h2, h3, h4]

theorem run_phB (env : TurnEnv) (L : ℤ) (es : List Ev) :
    ∀ s : BatchState, PhB L s → (∀ e ∈ es, silentEv e) →
    (PhB L (run env s es).1 ∧ (run env s es).2 = 0) ∨
    (PhC (run env s es).1 ∧ (run env s es).2 = 1) := by
  induction es with
  | nil =>
    intro s h _
    left
    exact ⟨h, rfl⟩
  | cons e es ih =>
    intro s h hs
    rcases runStep_phB env L s e h (hs e (by simp)) with ⟨hB, hc⟩ | ⟨hC, hc⟩
    · rcases ih (runStep env s e).1 hB (fun e' he' => hs e' (by simp [he']))
        with ⟨h1, h2⟩ | ⟨h1, h2⟩
      · left; simp [run, hc, h1, h2]
      · right; simp [run, hc, h1, h2]
    · obtain ⟨h1, h2⟩ := run_phC env (runStep env s e).1 es hC
        (fun e' he' => hs e' (by simp [he']))
      right; simp [run, hc, h1, h2]

theorem run_phA (env : TurnEnv) (L : ℤ) (es : List Ev) :
    ∀ s : BatchState, PhA L s → (∀ e ∈ es, silentEv e) →
    ((PhA L (run env s es).1 ∨ PhB L (run env s es).1) ∧
      (run env s es).2 = 0) ∨
    (PhC (run env s es).1 ∧ (run env s es).2 = 1) := by
  induction es with
  | nil =>
    intro s h _
    left
    exact ⟨Or.inl h, rfl⟩
  | cons e es ih =>
    intro s h hs
    obtain ⟨hAB, hc⟩ := runStep_phA env L s e h (hs e (by simp))
    rcases hAB with hA | hB
    · rcases ih (runStep env s e).1 hA (fun e' he' => hs e' (by simp [he']))
        with ⟨h1, h2⟩ | ⟨h1, h2⟩
      · left; simp [run, hc, h1, h2]
      · right; simp [run, hc, h1, h2]
    · rcases run_phB env L es (runStep env s e).1 hB
        (fun e' he' => hs e' (by simp [he'])) with ⟨h1, h2⟩ | ⟨h1, h2⟩
      · left; simp [run, hc, h1, h2]
      · right; simp [run, hc, h1, h2]


theorem run_cons (env : TurnEnv) (s : BatchState) (e : Ev) (es : List Ev) :
    run env s (e :: es) =
      ((run env (runStep env s e).1 es).1,
       (runStep env s e).2 + (run env (runStep env s e).1 es).2) := rfl

theorem run_append (env : TurnEnv) (s : BatchState) (xs ys : List Ev) :
    (run env s (xs ++ ys)).2 =
      (run env s xs).2 + (run env (run env s xs).1 ys).2 := by
  induction xs generalizing s with
  | nil => simp [run]
  | cons e es ih =>
    simp [run_cons, ih (runStep env s e).1, Nat.add_assoc]

theorem run_fire_from_phB (env : TurnEnv) (L : ℤ) (s : BatchState)
    (es₂ es₃ : List Ev) (tf : ℤ) (hB : PhB L s)
    (h2 : ∀ e ∈ es₂, silentEv e) (h3 : ∀ e ∈ es₃, silentEv e) :
    (run env s (es₂ ++ Ev.fire tf :: es₃)).2 = 1 := by
  rw [run_append env s es₂ _, run_cons]
  rcases run_phB env L es₂ s hB h2 with ⟨hB1, hc1⟩ | ⟨hC1, hc1⟩
  · rw [hc1]
    rcases runStep_phB env L _ (Ev.fire tf) hB1 trivial with
        ⟨hB2, hc2⟩ | ⟨hC2, hc2⟩
    · exact absurd hc2 (by simp [runStep, hB1.2.2.2.2.2.2])
    · rw [hc2, (run_phC env _ es₃ hC2 h3).2]
      simp
  · rw [hc1]
    obtain ⟨hC2, hc2⟩ := runStep_phC env _ (Ev.fire tf) hC1 trivial
    rw [hc2, (run_phC env _ es₃ hC2 h3).2]
    simp

/-- Claim C4: for any run in which speech is followed by silence — an
arbitrary all-silent event trace containing a frame more than
`SILENCE_DURATION` ms after the last speech and, later, the armed timer's
expiry — exactly one SilenceConfirmed fires, no matter how many further
silent frames or timer events follow. -/
theorem silence_confirmed_exactly_once (env : TurnEnv) (s : BatchState)
    (L t tf : ℤ) (f : List ℚ) (es₁ es₂ es₃ : List Ev)
    (hA : PhA L s)
    (h1 : ∀ e ∈ es₁, silentEv e) (h2 : ∀ e ∈ es₂, silentEv e)
    (h3 : ∀ e ∈ es₃, silentEv e)
    (hf : vadSpeech f = false) (ht : t - L > SILENCE_DURATION) :
    (run env s
        (es₁ ++ Ev.frame f t :: (es₂ ++ Ev.fire tf :: es₃))).2 = 1 := by
  have hrest : ∀ e ∈ es₂ ++ Ev.fire tf :: es₃, silentEv e := by
    intro e he
    rcases List.mem_append.mp he with h | h
    · exact h2 e h
    · rcases List.mem_cons.mp h with rfl | h
      · trivial
      · exact h3 e h
  rw [run_append env s es₁ _, run_cons]
  rcases run_phA env L es₁ s hA h1 with ⟨hAB, hc1⟩ | ⟨hC1, hc1⟩
  · rw [hc1]
    have hB2 : PhB L (vadStep (run env s es₁).1 f t) := by
      rcases hAB with hA1 | hB1
      · exact vadStep_arm L _ f t hA1 hf ht
      · rcases runStep_phB env L _ (Ev.frame f t) hB1 hf with
            ⟨hB2, _⟩ | ⟨_, hc2⟩
        · exact hB2
        · exact absurd hc2 (by simp [runStep])
    have hx := run_fire_from_phB env L (vadStep (run env s es₁).1 f t)
      es₂ es₃ tf hB2 h2 h3
    show 0 + ((runStep env (run env s es₁).1 (Ev.frame f t)).2 +
      (run env (runStep env (run env s es₁).1 (Ev.frame f t)).1
        (es₂ ++ Ev.fire tf :: es₃)).2) = 1
    rw [show (runStep env (run env s es₁).1 (Ev.frame f t)).2 = 0 from rfl]
    rw [show (runStep env (run env s es₁).1 (Ev.frame f t)).1 =
      vadStep (run env s es₁).1 f t from rfl]
    rw [hx]
  · rw [hc1]
    obtain ⟨hC2, hc2⟩ := runStep_phC env _ (Ev.frame f t) hC1 hf
    rw [hc2, (run_phC env _ _ hC2 hrest).2]
    simp

theorem silence_confirmed_exactly_once_witness :
    (run ⟨20000, .ok "hello there", .ok "hi", true⟩
        ⟨true, false, "Listening...", [], true, 0, none, false, true,
         false, false⟩
        [Ev.frame [0] 2500, Ev.fire 2600]).2 = 1 := by
  have hf : vadSpeech [0] = false := by
    simp only [vadSpeech, rmsSq, VAD_THRESHOLD, List.foldl, List.length]
    norm_num
  exact silence_confirmed_exactly_once _ _ 0 2500 2600 [0] [] [] []
    ⟨rfl, rfl, rfl, rfl, rfl, rfl, rfl⟩
    (fun e he => absurd he (List.not_mem_nil e))
    (fun e he => absurd he (List.not_mem_nil e))
    (fun e he => absurd he (List.not_mem_nil e))
    hf (by decide)

end Avatar
